import Mathlib

/-!
Shallow embedding of `src/memos/mem_scheduler/modules/redis_service.py`
(class `RedisSchedulerModule`) and proofs about it.

Modelling conventions:
* The external Redis store is opaque.  Its observable behaviour at each call
  site is supplied as an explicit environment value (`ConnectResult` for
  `initialize_redis`, `ReadBehavior` for each `xread` in the listener loop,
  the store-assigned entry id for `xadd`).
* The stream is a list of entries ordered oldest first; the store appends at
  the end, so "most recent" entries form a suffix.
* Python exceptions are modelled as explicit `raised` results; mutations of
  `self` performed before an exception propagates are kept in the returned
  state, exactly as in Python.
* Logging (`logger.debug/error/warning/info`) and the `print` on line 111 are
  modelled as an append-only list of structured `LogEvent`s; `asyncio.sleep`
  is recorded as a `sleep` event.
-/

/-- Field mapping of a stream entry (`message_data`): Redis hash of
string fields to string values, modelled as an association list. -/
abbrev Fields := List (String × String)

/-- A stream entry: `(message_id, message_data)` as yielded by `xread`. -/
abbrev Entry := String × Fields

/-- A live Redis connection handle, as constructed on line 59:
`redis.Redis(host=..., port=..., db=..., decode_responses=True)`. -/
structure Conn where
  host : String
  port : Nat
  db : Nat
deriving DecidableEq, Repr

/-- Handle of the background listener thread (`threading.Thread`);
`alive` models `is_alive()`. -/
structure ThreadHandle where
  alive : Bool
deriving DecidableEq, Repr

/-- One logging/printing/sleeping effect of the module, one constructor per
call site in the source. -/
inductive LogEvent where
  /-- line 58: `logger.debug(f"Connecting to Redis at .../...")` -/
  | debugConnecting (host : String) (port db : Nat)
  /-- line 64: `logger.error("Redis connection failed")` (ping returned falsy) -/
  | errorPingFailed
  /-- line 67: `logger.error(f"Redis connection error: ...")` in `initialize_redis` -/
  | errorConnectionInit
  /-- line 72: `logger.debug(f"add_message_stream: ...")` -/
  | debugAddMessage (message : Fields)
  /-- line 111: `print(f"deal with message_data ...")`, emitted just before the
  handler is invoked on an entry -/
  | printDeal (data : Fields)
  /-- line 115: `logger.error(f"Error processing message ...: ...")` -/
  | errorProcessing (id : String)
  /-- line 118: `logger.error(f"Redis connection error: ...")` in the listener loop -/
  | errorConnectionRead
  /-- line 122: `logger.error(f"Unexpected error: ...")` -/
  | unexpectedError
  /-- lines 119 and 123: `await asyncio.sleep(seconds)` -/
  | sleep (seconds : Nat)
  /-- line 128: `logger.warning("Listener is already running")` -/
  | warnAlreadyRunning
  /-- line 141: `logger.info("Started Redis stream listener thread")` -/
  | infoStartedThread
  /-- line 149: `logger.warning("Listener thread did not stop gracefully")` -/
  | warnNotGraceful
  /-- line 150: `logger.info("Redis stream listener stopped")` -/
  | infoStopped
deriving DecidableEq, Repr

/-- A Python exception escaping one of the modelled operations. -/
inductive PyError where
  /-- `AttributeError`: a method call on a `None` handle
  (`None.xtrim` on line 68, `None.xadd` on line 73). -/
  | attributeError
deriving DecidableEq, Repr

/-- The spec's name (section 7) for the failure of a publish against a null
connection; in the code it is concretely the `AttributeError` raised by
`None.xadd`. -/
def notConnectedError : PyError := .attributeError

/-- Instance state of `RedisSchedulerModule`, fields as set in `__init__`
(lines 30-38). -/
structure ModuleState where
  redis_host : Option String
  redis_port : Option Nat
  redis_db : Option Nat
  _redis_conn : Option Conn
  query_list_capacity : Nat
  _redis_listener_running : Bool
  _redis_listener_thread : Option ThreadHandle
deriving DecidableEq, Repr

/-- The state right after `__init__` (lines 27-38). -/
def initState : ModuleState :=
  { redis_host := none
    redis_port := none
    redis_db := none
    _redis_conn := none
    query_list_capacity := 1000
    _redis_listener_running := false
    _redis_listener_thread := none }

/-- Behaviour of the store during `initialize_redis`: either the
`redis.Redis(...)` construction succeeds and `ping()` returns the given
boolean, or the construction/ping raises `redis.ConnectionError`. -/
inductive ConnectResult where
  /-- construction succeeded; `ping()` returned `pingOk` -/
  | constructed (pingOk : Bool)
  /-- `redis.Redis(...)` or `ping()` raised `redis.ConnectionError` -/
  | connError
deriving DecidableEq, Repr

/-- `XTRIM user:queries:stream MAXLEN maxlen` (line 68): keeps only the most
recent `maxlen` entries, i.e. the longest suffix of length at most `maxlen`. -/
def xtrim (stream : List Entry) (maxlen : Nat) : List Entry :=
  stream.drop (stream.length - maxlen)

/-- Complete outcome of a call to `initialize_redis`: the instance state and
the stream after the call, the log, and the returned value or the raised
exception. -/
structure InitOutcome where
  state : ModuleState
  stream : List Entry
  log : List LogEvent
  result : Except PyError (Option Conn)
deriving Repr

/-- `initialize_redis` (lines 48-69).  Sets host/port/db, tries to construct
the connection and ping it; on `redis.ConnectionError` nulls the handle and
logs; then unconditionally calls `self._redis_conn.xtrim(...)` (line 68) and
returns the handle.  When the handle is `None` at line 68, the attribute
access raises `AttributeError`. -/
def initialize_redis (host : String) (port db : Nat) (env : ConnectResult)
    (stream : List Entry) (s : ModuleState) : InitOutcome :=
  let s := { s with redis_host := some host, redis_port := some port,
                    redis_db := some db }
  let log : List LogEvent := [.debugConnecting host port db]
  match env with
  | .constructed pingOk =>
      let s := { s with _redis_conn := some ⟨host, port, db⟩ }
      let log := if pingOk then log else log ++ [.errorPingFailed]
      -- line 68 succeeds on the non-null handle and trims the stream
      { state := s
        stream := xtrim stream s.query_list_capacity
        log := log
        result := .ok s._redis_conn }
  | .connError =>
      let s := { s with _redis_conn := none }
      let log := log ++ [.errorConnectionInit]
      -- line 68: `self._redis_conn.xtrim` with `self._redis_conn = None`
      -- raises `AttributeError`; the stream is not trimmed.
      { state := s
        stream := stream
        log := log
        result := .error .attributeError }

/-- `redis_add_message_stream` (lines 71-73): result of `return
self._redis_conn.xadd("user:queries:stream", message)`. -/
inductive PubResult where
  | returned (stream : List Entry) (id : String)
  | raised (e : PyError)
deriving DecidableEq, Repr

/-- `redis_add_message_stream` (lines 71-73).  `assignedId` is the entry id
the store assigns on a successful `xadd`.  On a null handle, `None.xadd`
raises `AttributeError`. -/
def redis_add_message_stream (assignedId : String) (message : Fields)
    (stream : List Entry) (s : ModuleState) : PubResult :=
  match s._redis_conn with
  | none => .raised .attributeError
  | some _ => .returned (stream ++ [(assignedId, message)]) assignedId

/-- State threaded through the listener loop
`__redis_listen_query_stream` (lines 93-123): the shared instance state
(`self`), the local cursor `last_id`, and the accumulated log. -/
structure LoopState where
  s : ModuleState
  last_id : String
  log : List LogEvent
deriving DecidableEq, Repr

/-- Behaviour of one `xread` call (lines 103-105) when the handle is live:
either it returns a (possibly empty) list of `(stream_name, entries)` pairs,
or it raises `redis.ConnectionError`, or it raises some other exception. -/
inductive ReadBehavior where
  | ret (messages : List (String × List Entry))
  | raiseConn
  | raiseOther
deriving DecidableEq, Repr

/-- Inner per-entry body (lines 110-115): print, invoke the handler; on
success advance `last_id` to the entry's id, on a handler exception log the
error and keep the cursor.  `handler d = true` models the handler returning
without error on data `d`. -/
def processEntry (handler : Fields → Bool) (acc : String × List LogEvent)
    (e : Entry) : String × List LogEvent :=
  let log := acc.2 ++ [.printDeal e.2]
  if handler e.2 then (e.1, log)
  else (acc.1, log ++ [.errorProcessing e.1])

/-- The `for message_id, message_data in stream_messages` loop (line 109). -/
def processEntries (handler : Fields → Bool) (acc : String × List LogEvent)
    (es : List Entry) : String × List LogEvent :=
  es.foldl (processEntry handler) acc

/-- The `for _, stream_messages in messages` loop (line 108). -/
def processMessages (handler : Fields → Bool) (acc : String × List LogEvent)
    (messages : List (String × List Entry)) : String × List LogEvent :=
  messages.foldl (fun a sm => processEntries handler a sm.2) acc

/-- One iteration of the `while self._redis_listener_running` loop
(lines 100-123).  If the handle is `None`, `self.redis.xread` raises
`AttributeError`, which lands in the generic `except Exception` branch
(lines 121-123).  On `redis.ConnectionError` (lines 117-120) the loop logs,
sleeps 5 seconds, then nulls the connection reference. -/
def loopIter (handler : Fields → Bool) (beh : ReadBehavior)
    (st : LoopState) : LoopState :=
  if st.s._redis_listener_running then
    match st.s._redis_conn with
    | none =>
        { st with log := st.log ++ [.unexpectedError, .sleep 1] }
    | some _ =>
        match beh with
        | .ret messages =>
            let r := processMessages handler (st.last_id, st.log) messages
            { st with last_id := r.1, log := r.2 }
        | .raiseConn =>
            { st with
              s := { st.s with _redis_conn := none }
              log := st.log ++ [.errorConnectionRead, .sleep 5] }
        | .raiseOther =>
            { st with log := st.log ++ [.unexpectedError, .sleep 1] }
  else st

/-- `__redis_listen_query_stream` (lines 93-123), run for as many loop
iterations as the environment `env` supplies read behaviours.  Line 99 sets
`self._redis_listener_running = True` unconditionally before the first
iteration. -/
def redis_listen_query_stream (handler : Fields → Bool)
    (env : List ReadBehavior) (st : LoopState) : LoopState :=
  let st := { st with s := { st.s with _redis_listener_running := true } }
  env.foldl (fun a beh => loopIter handler beh a) st

/-- `redis_start_listening` (lines 125-141).  If a listener thread exists and
is alive, logs a warning and returns without spawning; otherwise spawns a new
daemon thread and records its handle. -/
def redis_start_listening (s : ModuleState) : ModuleState × List LogEvent :=
  match s._redis_listener_thread with
  | some t =>
      if t.alive then (s, [.warnAlreadyRunning])
      else ({ s with _redis_listener_thread := some ⟨true⟩ },
            [.infoStartedThread])
  | none =>
      ({ s with _redis_listener_thread := some ⟨true⟩ }, [.infoStartedThread])

/-- `redis_stop_listening` (lines 143-150).  Clears the running flag, then
joins the thread with a 5-second timeout.  The loop re-checks the flag at
most `block_time` = 2000 ms after it is cleared and the wrapper
(lines 83-91) then returns, so within the 5-second join window the thread
terminates: the join is modelled as succeeding, and the "did not stop
gracefully" warning branch (line 149) is not reached. -/
def redis_stop_listening (s : ModuleState) : ModuleState × List LogEvent :=
  let s := { s with _redis_listener_running := false }
  match s._redis_listener_thread with
  | some t =>
      if t.alive then
        ({ s with _redis_listener_thread := some ⟨false⟩ }, [.infoStopped])
      else (s, [.infoStopped])
  | none => (s, [.infoStopped])

/-- `redis_close` (lines 152-156): if a connection exists, close it and null
the reference; otherwise do nothing. -/
def redis_close (s : ModuleState) : ModuleState :=
  match s._redis_conn with
  | some _ => { s with _redis_conn := none }
  | none => s

/-! ## Claims -/

/-- Claim C1 — code check at the failing input.  When construction raises
`redis.ConnectionError`, `initialize_redis` logs and nulls the handle, but
then line 68 dereferences the `None` handle, so the call raises
`AttributeError` to the caller instead of returning the null connection; and
when the liveness probe merely returns false, the call logs the failure but
returns the non-null connection, not a null one. -/
theorem c1_connError_raises (host : String) (port db : Nat)
    (stream : List Entry) (s : ModuleState) :
    (initialize_redis host port db .connError stream s).result
        = .error .attributeError ∧
    LogEvent.errorConnectionInit
        ∈ (initialize_redis host port db .connError stream s).log ∧
    (initialize_redis host port db .connError stream s).state._redis_conn
        = none ∧
    (initialize_redis host port db (.constructed false) stream s).result
        = .ok (some ⟨host, port, db⟩) := by
  refine ⟨rfl, ?_, rfl, rfl⟩
  simp [initialize_redis]

/-- Claim C2 — counterexample.  Concretely, when the connection is
constructed but `ping()` returns false (the liveness probe reported
failure, as the log shows), the stored handle after `initialize_redis`
is NOT null: the claim as stated is false. -/
theorem c2_counterexample :
    (initialize_redis "localhost" 6379 0 (.constructed false) [] initState).log
        = [.debugConnecting "localhost" 6379 0, .errorPingFailed] ∧
    ¬ (initialize_redis "localhost" 6379 0 (.constructed false) []
        initState).state._redis_conn = none := by
  exact ⟨rfl, by simp [initialize_redis]⟩

/-- Claim C2 — amended.  After `initialize_redis`, the stored handle is null
exactly when construction or probe raised `redis.ConnectionError`; when the
probe merely returned false the failure is only logged and the (unusable)
handle is kept non-null. -/
theorem c2_handle_null_iff_connError (host : String) (port db : Nat)
    (env : ConnectResult) (stream : List Entry) (s : ModuleState) :
    (initialize_redis host port db env stream s).state._redis_conn = none
        ↔ env = .connError := by
  cases env <;> simp [initialize_redis]

/-- Claim C9.  The default capacity is 1000, and a successful
`initialize_redis` (construction did not raise) trims the stream to at most
`query_list_capacity` entries, keeping only the most recent ones (a suffix
of the pre-existing stream). -/
theorem c9_init_trims (host : String) (port db : Nat) (pingOk : Bool)
    (stream : List Entry) (s : ModuleState) :
    initState.query_list_capacity = 1000 ∧
    (initialize_redis host port db (.constructed pingOk) stream s).stream.length
        ≤ s.query_list_capacity ∧
    ((initialize_redis host port db (.constructed pingOk) stream
        s).stream).IsSuffix stream := by
  refine ⟨rfl, ?_, ?_⟩
  · simp only [initialize_redis, xtrim, List.length_drop]
    omega
  · simpa only [initialize_redis, xtrim] using List.drop_suffix _ stream

/-- Claim C3.  A publish against a null connection fails with the
not-connected error (concretely, the `AttributeError` raised by
`None.xadd`); against a live connection it appends the message as a new
entry at the end of the stream and returns the store-assigned id. -/
theorem c3_publish (assignedId : String) (message : Fields)
    (stream : List Entry) (s live : ModuleState) (c : Conn)
    (hnone : s._redis_conn = none) (hsome : live._redis_conn = some c) :
    redis_add_message_stream assignedId message stream s
        = .raised notConnectedError ∧
    redis_add_message_stream assignedId message stream live
        = .returned (stream ++ [(assignedId, message)]) assignedId := by
  constructor
  · simp [redis_add_message_stream, hnone, notConnectedError]
  · simp [redis_add_message_stream, hsome]

/-- Claim C3 — witness at a concrete input. -/
theorem c3_publish_witness :
    redis_add_message_stream "1-0" [("q", "hello")] [] initState
        = .raised notConnectedError ∧
    redis_add_message_stream "1-0" [("q", "hello")] []
        { initState with _redis_conn := some ⟨"localhost", 6379, 0⟩ }
        = .returned [("1-0", [("q", "hello")])] "1-0" :=
  c3_publish "1-0" [("q", "hello")] [] initState
    { initState with _redis_conn := some ⟨"localhost", 6379, 0⟩ }
    ⟨"localhost", 6379, 0⟩ rfl rfl

/-- Claim C4.  After dispatching one more entry `e`, the cursor equals
`e`'s id when the handler returned without error and keeps the value it had
before `e` otherwise; and when the handler raises on `e`, the error is
logged with `e`'s id. -/
theorem c4_cursor_advance (handler : Fields → Bool) (es : List Entry)
    (e : Entry) (last_id : String) (log : List LogEvent) :
    ((processEntries handler (last_id, log) (es ++ [e])).1 =
      if handler e.2 then e.1
      else (processEntries handler (last_id, log) es).1) ∧
    (handler e.2 = false →
      LogEvent.errorProcessing e.1
        ∈ (processEntries handler (last_id, log) (es ++ [e])).2) := by
  have h : processEntries handler (last_id, log) (es ++ [e]) =
      processEntry handler (processEntries handler (last_id, log) es) e := by
    simp [processEntries, List.foldl_append]
  constructor
  · rw [h]
    by_cases hb : handler e.2 <;> simp [processEntry, hb]
  · intro hf
    rw [h]
    simp [processEntry, hf]

/-- Claim C4 — witness at a concrete input where the handler raises. -/
theorem c4_cursor_advance_witness :
    ((processEntries (fun d => d != [("q", "b")]) ("$", [])
        ([("1-0", [("q", "a")])] ++ [("2-0", [("q", "b")])])).1 =
      if (fun d => d != [("q", "b")]) ("2-0", [("q", "b")]).2
      then ("2-0", [("q", "b")]).1
      else (processEntries (fun d => d != [("q", "b")]) ("$", [])
        [("1-0", [("q", "a")])]).1) ∧
    LogEvent.errorProcessing "2-0"
        ∈ (processEntries (fun d => d != [("q", "b")]) ("$", [])
            ([("1-0", [("q", "a")])] ++ [("2-0", [("q", "b")])])).2 :=
  ⟨(c4_cursor_advance (fun d => d != [("q", "b")]) [("1-0", [("q", "a")])]
      ("2-0", [("q", "b")]) "$" []).1,
   (c4_cursor_advance (fun d => d != [("q", "b")]) [("1-0", [("q", "a")])]
      ("2-0", [("q", "b")]) "$" []).2 (by decide)⟩

/-- Realizable semantics of the blocking read on lines 103-105,
`xread({"user:queries:stream": last_id}, count=1, block=block_time)`, over a
static stream: it returns the earliest entry whose id comes after the cursor,
at most one entry (`count=1`), or nothing when no entry lies past the cursor
(the blocking read timed out).  The sentinel cursor `$` subscribes to entries
appended after the listener starts; in a scenario where every entry of
`stream` arrives after the listener starts, it denotes the position before
the first entry. -/
def xreadFirstAfter (stream : List Entry) (cursor : String) :
    List (String × List Entry) :=
  let rest := if cursor = "$" then stream
              else (stream.dropWhile (fun e => e.1 != cursor)).drop 1
  match rest with
  | [] => []
  | e :: _ => [("user:queries:stream", [e])]

/-- The `while` loop of `__redis_listen_query_stream` run for `n` iterations
against the realizable store: each iteration's `xread` is answered by
`xreadFirstAfter` at the loop's current cursor. -/
def runStore (handler : Fields → Bool) (stream : List Entry) :
    Nat → LoopState → LoopState
  | 0, st => st
  | n + 1, st =>
      runStore handler stream n
        (loopIter handler (.ret (xreadFirstAfter stream st.last_id)) st)

/-- `__redis_listen_query_stream` (lines 93-123) against the realizable
store: line 99 sets the running flag, then the loop runs `n` iterations with
every read answered by `xreadFirstAfter`. -/
def redis_listen_query_stream_store (handler : Fields → Bool)
    (stream : List Entry) (n : Nat) (st : LoopState) : LoopState :=
  runStore handler stream n
    { st with s := { st.s with _redis_listener_running := true } }

/-- Running the store-driven loop for `m + n` iterations is running it for
`m` and then for `n` more. -/
theorem runStore_add (handler : Fields → Bool) (stream : List Entry)
    (m n : Nat) (st : LoopState) :
    runStore handler stream (m + n) st
      = runStore handler stream n (runStore handler stream m st) := by
  induction m generalizing st with
  | zero => simp [runStore]
  | succ m ih => rw [Nat.succ_add, runStore, runStore, ih]

/-- The three-entry stream of the C5 scenario. -/
def c5_stream : List Entry :=
  [("1-0", [("q", "a")]), ("2-0", [("q", "b")]), ("3-0", [("q", "c")])]

/-- The C5 handler: raises exactly on entry 2's data. -/
def c5_handler : Fields → Bool := fun d => d != [("q", "b")]

/-- The connection of the C5 scenario. -/
def c5_conn : Conn := ⟨"localhost", 6379, 0⟩

/-- Initial listener state of the C5 scenario: live connection, fresh
cursor. -/
def c5_start : LoopState :=
  { s := { initState with _redis_conn := some c5_conn },
    last_id := "$", log := [] }

/-- The C5 scenario run for `n` loop iterations. -/
def c5_run_n (n : Nat) : LoopState :=
  redis_listen_query_stream_store c5_handler c5_stream n c5_start

/-- Invariant of the C5 scenario once the failed entry has been reached:
the cursor is stuck at entry 1, the connection and running flag are intact,
entry 1 was dispatched, entry 2's error was logged, and entry 3 was never
dispatched. -/
def c5_stuckInv (st : LoopState) : Prop :=
  st.last_id = "1-0" ∧
  st.s._redis_conn = some c5_conn ∧
  st.s._redis_listener_running = true ∧
  LogEvent.printDeal [("q", "a")] ∈ st.log ∧
  LogEvent.errorProcessing "2-0" ∈ st.log ∧
  LogEvent.printDeal [("q", "c")] ∉ st.log

/-- One more iteration preserves the stuck invariant: the read at cursor
`1-0` re-delivers entry `2-0`, the handler fails again, and the cursor does
not move. -/
theorem c5_retry_step (st : LoopState) (h : c5_stuckInv st) :
    c5_stuckInv
      (loopIter c5_handler
        (.ret (xreadFirstAfter c5_stream st.last_id)) st) := by
  obtain ⟨h1, h2, h3, h4, h5, h6⟩ := h
  rw [h1]
  have hx : xreadFirstAfter c5_stream "1-0"
      = [("user:queries:stream", [("2-0", [("q", "b")])])] := by decide
  rw [hx]
  unfold c5_stuckInv
  simp only [loopIter, h2, h3, if_true]
  refine ⟨?_, ?_, ?_, ?_, ?_, ?_⟩ <;>
    simp [processMessages, processEntries, processEntry, c5_handler, h1, h4,
      h6]

/-- Any number of further iterations preserves the stuck invariant. -/
theorem c5_stuck_all (n : Nat) (st : LoopState) (h : c5_stuckInv st) :
    c5_stuckInv (runStore c5_handler c5_stream n st) := by
  induction n generalizing st with
  | zero => exact h
  | succ n ih =>
      rw [runStore]
      exact ih _ (c5_retry_step st h)

/-- Claim C5 — counterexample.  In the realizable run (each blocking read
answered with the earliest entry after the cursor, `count=1`), with a
handler that raises only on entry 2 of 3: after 6 loop iterations entry 1
was dispatched once, entry 2 was re-delivered and failed on every further
iteration, and entry 3 was never delivered to the handler — so the claim
that entries 1 AND 3 are delivered is false. -/
theorem c5_counterexample :
    (c5_run_n 6).log =
      [.printDeal [("q", "a")],
       .printDeal [("q", "b")], .errorProcessing "2-0",
       .printDeal [("q", "b")], .errorProcessing "2-0",
       .printDeal [("q", "b")], .errorProcessing "2-0",
       .printDeal [("q", "b")], .errorProcessing "2-0",
       .printDeal [("q", "b")], .errorProcessing "2-0"] ∧
    LogEvent.printDeal [("q", "c")] ∉ (c5_run_n 6).log ∧
    (c5_run_n 6).last_id = "1-0" ∧
    (c5_run_n 6).s._redis_listener_running = true := by
  decide

/-- Claim C5 — amended.  With the actual blocking-read semantics, a running
listener with a handler that raises only on entry 2 of 3 delivers entry 1,
logs the error for entry 2, and the loop does not stop; but because the
cursor is never advanced past the failed entry, every further read
re-delivers entry 2 and entry 3 is never delivered: after any number of
iterations beyond the first two, the cursor is still at entry 1, entry 2's
error is logged, and entry 3's dispatch never appears in the log. -/
theorem c5_amended (n : Nat) :
    (c5_run_n (n + 2)).last_id = "1-0" ∧
    (c5_run_n (n + 2)).s._redis_listener_running = true ∧
    LogEvent.printDeal [("q", "a")] ∈ (c5_run_n (n + 2)).log ∧
    LogEvent.errorProcessing "2-0" ∈ (c5_run_n (n + 2)).log ∧
    LogEvent.printDeal [("q", "c")] ∉ (c5_run_n (n + 2)).log := by
  have key : c5_run_n (n + 2)
      = runStore c5_handler c5_stream n (c5_run_n 2) := by
    show runStore _ _ (n + 2) _ = _
    rw [show n + 2 = 2 + n by omega, runStore_add]
    rfl
  have h : c5_stuckInv (runStore c5_handler c5_stream n (c5_run_n 2)) :=
    c5_stuck_all n _ (by unfold c5_stuckInv; decide)
  rw [key]
  exact ⟨h.1, h.2.2.1, h.2.2.2.1, h.2.2.2.2.1, h.2.2.2.2.2⟩

/-- Listener run for claim C6: a live connection, a read that raises
`redis.ConnectionError`, then a read environment that would yield an entry. -/
def c6_run : LoopState :=
  redis_listen_query_stream (fun _ => true)
    [.raiseConn, .ret [("user:queries:stream", [("1-0", [("q", "hello")])])]]
    { s := { initState with _redis_conn := some ⟨"localhost", 6379, 0⟩ },
      last_id := "$", log := [] }

/-- Claim C6 — counterexample.  After a connectivity failure the loop nulls
the connection reference, but the subsequent iteration does NOT reconnect
and resume reading: even though the store would yield entry `1-0`, nothing
is dispatched (no print, cursor unchanged), the iteration fails on the null
handle (logged as an unexpected error, 1-second sleep), and the connection
is still null. -/
theorem c6_counterexample :
    c6_run.s._redis_conn = none ∧
    LogEvent.printDeal [("q", "hello")] ∉ c6_run.log ∧
    c6_run.log = [.errorConnectionRead, .sleep 5, .unexpectedError, .sleep 1] ∧
    c6_run.last_id = "$" := by
  decide

/-- Claim C6 — amended.  On a connectivity failure during the blocking read
the loop logs the error, sleeps 5 seconds, nulls the connection reference,
keeps the cursor, and stays running; but the loop itself never reconnects:
from any state with a null connection reference, one more iteration (with
any read behaviour) leaves the reference null and the cursor unchanged. -/
theorem c6_amended (handler : Fields → Bool) (beh : ReadBehavior)
    (st st' : LoopState) (c : Conn)
    (hc : st.s._redis_conn = some c)
    (hr : st.s._redis_listener_running = true)
    (h' : st'.s._redis_conn = none) :
    (loopIter handler .raiseConn st).log
        = st.log ++ [.errorConnectionRead, .sleep 5] ∧
    (loopIter handler .raiseConn st).s._redis_conn = none ∧
    (loopIter handler .raiseConn st).s._redis_listener_running = true ∧
    (loopIter handler .raiseConn st).last_id = st.last_id ∧
    (loopIter handler beh st').s._redis_conn = none ∧
    (loopIter handler beh st').last_id = st'.last_id := by
  refine ⟨?_, ?_, ?_, ?_, ?_, ?_⟩
  · simp [loopIter, hc, hr]
  · simp [loopIter, hc, hr]
  · simp [loopIter, hc, hr]
  · simp [loopIter, hc, hr]
  · by_cases hrun : st'.s._redis_listener_running = true <;>
      simp [loopIter, h', hrun]
  · by_cases hrun : st'.s._redis_listener_running = true <;>
      simp [loopIter, h', hrun]

/-- State with a live connection and the running flag set, for the C6
witness. -/
def c6_live : LoopState :=
  { s := { initState with _redis_conn := some ⟨"localhost", 6379, 0⟩,
                          _redis_listener_running := true },
    last_id := "$", log := [] }

/-- State with a null connection and the running flag set, for the C6
witness. -/
def c6_nullconn : LoopState :=
  { s := { initState with _redis_listener_running := true },
    last_id := "$", log := [] }

/-- Claim C6 — witness at concrete inputs. -/
theorem c6_amended_witness :
    (loopIter (fun _ => true) .raiseConn c6_live).log
        = c6_live.log ++ [.errorConnectionRead, .sleep 5] ∧
    (loopIter (fun _ => true) .raiseConn c6_live).s._redis_conn = none ∧
    (loopIter (fun _ => true) .raiseConn c6_live).s._redis_listener_running
        = true ∧
    (loopIter (fun _ => true) .raiseConn c6_live).last_id = c6_live.last_id ∧
    (loopIter (fun _ => true)
        (.ret [("user:queries:stream", [("1-0", [("q", "hello")])])])
        c6_nullconn).s._redis_conn = none ∧
    (loopIter (fun _ => true)
        (.ret [("user:queries:stream", [("1-0", [("q", "hello")])])])
        c6_nullconn).last_id = c6_nullconn.last_id :=
  c6_amended (fun _ => true)
    (.ret [("user:queries:stream", [("1-0", [("q", "hello")])])])
    c6_live c6_nullconn ⟨"localhost", 6379, 0⟩ rfl rfl rfl

/-- Claim C7.  `redis_close` is idempotent on the instance state, and a
second `redis_stop_listening` in a row changes nothing and logs only the
"stopped" info message (no warning, no error). -/
theorem c7_idempotent (s : ModuleState) :
    redis_close (redis_close s) = redis_close s ∧
    (redis_stop_listening (redis_stop_listening s).1).1
        = (redis_stop_listening s).1 ∧
    (redis_stop_listening (redis_stop_listening s).1).2
        = [LogEvent.infoStopped] := by
  obtain ⟨h1, h2, h3, conn, cap, run, thr⟩ := s
  refine ⟨?_, ?_, ?_⟩
  · cases conn <;> rfl
  · rcases thr with _ | ⟨⟨a⟩⟩
    · rfl
    · cases a <;> rfl
  · rcases thr with _ | ⟨⟨a⟩⟩
    · rfl
    · cases a <;> rfl

/-- Claim C8.  Calling `redis_start_listening` while the recorded listener
thread is alive logs the already-running warning and leaves the instance
state unchanged — in particular no second worker thread is spawned. -/
theorem c8_single_listener (s : ModuleState) (t : ThreadHandle)
    (ht : s._redis_listener_thread = some t) (ha : t.alive = true) :
    redis_start_listening s = (s, [LogEvent.warnAlreadyRunning]) := by
  simp [redis_start_listening, ht, ha]

/-- Claim C8 — witness at a concrete input. -/
theorem c8_single_listener_witness :
    redis_start_listening
        { initState with _redis_listener_thread := some ⟨true⟩ }
      = ({ initState with _redis_listener_thread := some ⟨true⟩ },
         [LogEvent.warnAlreadyRunning]) :=
  c8_single_listener { initState with _redis_listener_thread := some ⟨true⟩ }
    ⟨true⟩ rfl rfl

/-- Claim C10.  Line 99 sets the running flag to true unconditionally: a
state in which a stop was already requested (flag false) produces exactly
the same listener run as the same state with the flag true, and on entering
the loop body the flag is true. -/
theorem c10_flag_overwritten (handler : Fields → Bool)
    (env : List ReadBehavior) (st : LoopState)
    (_h : st.s._redis_listener_running = false) :
    redis_listen_query_stream handler env st =
      redis_listen_query_stream handler env
        { st with s := { st.s with _redis_listener_running := true } } ∧
    (redis_listen_query_stream handler [] st).s._redis_listener_running
        = true :=
  ⟨rfl, rfl⟩

/-- Stop-requested state for the C10 witness: the flag is false, as after
`redis_stop_listening`, yet the listener run is unaffected. -/
def c10_st : LoopState :=
  { s := { initState with _redis_conn := some ⟨"localhost", 6379, 0⟩ },
    last_id := "$", log := [] }

/-- Read environment for the C10 witness. -/
def c10_env : List ReadBehavior :=
  [.ret [("user:queries:stream", [("1-0", [("q", "a")])])]]

/-- Claim C10 — witness at a concrete input. -/
theorem c10_flag_overwritten_witness :
    redis_listen_query_stream (fun _ => true) c10_env c10_st =
      redis_listen_query_stream (fun _ => true) c10_env
        { c10_st with
          s := { c10_st.s with _redis_listener_running := true } } ∧
    (redis_listen_query_stream (fun _ => true) []
        c10_st).s._redis_listener_running = true :=
  c10_flag_overwritten (fun _ => true) c10_env c10_st rfl
